import Mathlib

/-!
Verification of the hexagon resource game implemented by the `HexGame`
component (`src/root/alchemy.js`).  The game state consists of a player
position on a fixed hex map in axial coordinates, an action-point balance,
and an inventory of gathered resources.  The four operations `move`,
`gather`, `alchemy` (the home action) and `restoreAP` are embedded below as
pure state transformers, translated directly from the source.

The JavaScript code keys its tile table by the string `q,r`; since that
encoding is injective on integer pairs, the embedding keys tiles by the
pair `(q, r)` of integers directly.  A JavaScript object used as an
inventory is embedded as an insertion-ordered association list, absent
keys reading as `0` (mirroring `inventory[resource] || 0`).
-/

namespace HexGame

/-- Axial hex coordinate `(q, r)`. -/
abbrev Coord := Int × Int

/-- A map tile: terrain type, display color, icon name, and the resource
yield table, in the authored entry order. -/
structure Tile where
  type : String
  color : String
  icon : String
  resources : List (String × Int)
deriving DecidableEq, Repr

/-- The authored map, translated entry by entry from `TILE_DATA` in
`src/root/alchemy.js` (string key `q,r` rendered as the pair `(q, r)`). -/
def TILE_DATA : List (Coord × Tile) := [
  ((0, 0), ⟨"home", "#8B4513", "home", []⟩),
  ((0, -1), ⟨"plain", "#F0E68C", "plain", [("wood", 3), ("herbs", 1)]⟩),
  ((1, -1), ⟨"plain", "#F0E68C", "plain", [("stone", 2), ("iron", 1)]⟩),
  ((1, 0), ⟨"plain", "#F0E68C", "plain", [("wood", 3), ("herbs", 1)]⟩),
  ((0, 1), ⟨"plain", "#F0E68C", "plain", [("wood", 3), ("herbs", 1)]⟩),
  ((-1, 1), ⟨"plain", "#F0E68C", "plain", [("stone", 2), ("iron", 1)]⟩),
  ((-1, 0), ⟨"plain", "#F0E68C", "plain", [("wood", 3), ("herbs", 1)]⟩),
  ((0, -2), ⟨"forest", "#228B22", "tree", [("stone", 2), ("iron", 1)]⟩),
  ((1, -2), ⟨"forest", "#228B22", "tree", [("fish", 2), ("water", 3)]⟩),
  ((2, -2), ⟨"forest", "#228B22", "tree", [("stone", 2), ("iron", 1)]⟩),
  ((2, -1), ⟨"forest", "#228B22", "tree", [("fish", 2), ("water", 3)]⟩),
  ((2, 0), ⟨"forest", "#228B22", "tree", [("stone", 2), ("iron", 1)]⟩),
  ((1, 1), ⟨"forest", "#228B22", "tree", [("stone", 2), ("iron", 1)]⟩),
  ((0, 2), ⟨"forest", "#228B22", "tree", [("stone", 2), ("iron", 1)]⟩),
  ((-1, 2), ⟨"forest", "#228B22", "tree", [("fish", 2), ("water", 3)]⟩),
  ((-2, 2), ⟨"forest", "#228B22", "tree", [("stone", 2), ("iron", 1)]⟩),
  ((-2, 1), ⟨"forest", "#228B22", "tree", [("fish", 2), ("water", 3)]⟩),
  ((-2, 0), ⟨"forest", "#228B22", "tree", [("stone", 2), ("iron", 1)]⟩),
  ((-1, -1), ⟨"forest", "#228B22", "tree", [("stone", 2), ("iron", 1)]⟩),
  ((0, -3), ⟨"mountain", "#CD853F", "mountain", [("wheat", 2)]⟩),
  ((1, -3), ⟨"water", "#4682B4", "water", [("fish", 2), ("water", 3)]⟩),
  ((2, -3), ⟨"water", "#4682B4", "water", [("wheat", 2)]⟩),
  ((3, -3), ⟨"mountain", "#CD853F", "mountain", [("wheat", 2)]⟩),
  ((3, -2), ⟨"water", "#4682B4", "water", [("wheat", 2)]⟩),
  ((3, -1), ⟨"water", "#4682B4", "water", [("wheat", 2)]⟩),
  ((3, 0), ⟨"mountain", "#CD853F", "mountain", [("wheat", 2)]⟩),
  ((2, 1), ⟨"water", "#4682B4", "water", [("wheat", 2)]⟩),
  ((1, 2), ⟨"water", "#4682B4", "water", [("wheat", 2)]⟩),
  ((0, 3), ⟨"mountain", "#CD853F", "mountain", [("wheat", 2)]⟩),
  ((-1, 3), ⟨"water", "#4682B4", "water", [("fish", 2), ("water", 3)]⟩),
  ((-2, 3), ⟨"water", "#4682B4", "water", [("wheat", 2)]⟩),
  ((-3, 3), ⟨"mountain", "#CD853F", "mountain", [("wheat", 2)]⟩),
  ((-3, 2), ⟨"water", "#4682B4", "water", [("wheat", 2)]⟩),
  ((-3, 1), ⟨"water", "#4682B4", "water", [("wheat", 2)]⟩),
  ((-3, 0), ⟨"mountain", "#CD853F", "mountain", [("wheat", 2)]⟩),
  ((-2, -1), ⟨"water", "#4682B4", "water", [("wheat", 2)]⟩),
  ((-1, -2), ⟨"water", "#4682B4", "water", [("wheat", 2)]⟩),
  ((0, -4), ⟨"plains", "#F0E68C", "plains", [("wheat", 2)]⟩),
  ((1, -4), ⟨"plains", "#F0E68C", "plains", [("wheat", 2)]⟩),
  ((2, -4), ⟨"plains", "#F0E68C", "plains", [("wheat", 2)]⟩),
  ((3, -4), ⟨"plains", "#F0E68C", "plains", [("wheat", 2)]⟩),
  ((4, -4), ⟨"plains", "#F0E68C", "plains", [("wheat", 2)]⟩),
  ((4, -3), ⟨"plains", "#F0E68C", "plains", [("wheat", 2)]⟩),
  ((4, -2), ⟨"plains", "#F0E68C", "plains", [("wheat", 2)]⟩),
  ((4, -1), ⟨"plains", "#F0E68C", "plains", [("wheat", 2)]⟩),
  ((4, 0), ⟨"plains", "#F0E68C", "plains", [("wheat", 2)]⟩),
  ((3, 1), ⟨"plains", "#F0E68C", "plains", [("wheat", 2)]⟩),
  ((2, 2), ⟨"plains", "#F0E68C", "plains", [("wheat", 2)]⟩),
  ((1, 3), ⟨"plains", "#F0E68C", "plains", [("wheat", 2)]⟩),
  ((0, 4), ⟨"plains", "#F0E68C", "plains", [("wheat", 2)]⟩),
  ((-1, 4), ⟨"plains", "#F0E68C", "plains", [("wheat", 2)]⟩),
  ((-2, 4), ⟨"plains", "#F0E68C", "plains", [("wheat", 2)]⟩),
  ((-3, 4), ⟨"plains", "#F0E68C", "plains", [("wheat", 2)]⟩),
  ((-4, 4), ⟨"plains", "#F0E68C", "plains", [("wheat", 2)]⟩),
  ((-4, 3), ⟨"plains", "#F0E68C", "plains", [("wheat", 2)]⟩),
  ((-4, 2), ⟨"plains", "#F0E68C", "plains", [("wheat", 2)]⟩),
  ((-4, 1), ⟨"plains", "#F0E68C", "plains", [("wheat", 2)]⟩),
  ((-4, 0), ⟨"plains", "#F0E68C", "plains", [("wheat", 2)]⟩),
  ((-3, -1), ⟨"plains", "#F0E68C", "plains", [("wheat", 2)]⟩),
  ((-2, -2), ⟨"plains", "#F0E68C", "plains", [("wheat", 2)]⟩),
  ((-1, -3), ⟨"plains", "#F0E68C", "plains", [("wheat", 2)]⟩)]

/-- `TILE_DATA[key]` as an option-valued lookup (`tileAt` in the spec). -/
def tileAt (c : Coord) : Option Tile :=
  (TILE_DATA.find? (fun e => decide (e.1 = c))).map (fun e => e.2)

/-- The six movement directions. -/
inductive Dir
  | N | NE | SE | S | SW | NW
deriving DecidableEq, Repr

/-- `DIRECTIONS` from the source: the axial offset of each direction. -/
def DIRECTIONS : Dir → Coord
  | .N => (0, -1)
  | .NE => (1, -1)
  | .SE => (1, 0)
  | .S => (0, 1)
  | .SW => (-1, 1)
  | .NW => (-1, 0)

/-- The mutable player state: `playerPos`, `ap` and `inventory` in the
source.  AP is an integer (the source uses JavaScript numbers). -/
structure PlayerState where
  pos : Coord
  ap : Int
  inventory : List (String × Int)
deriving DecidableEq, Repr

/-- The initial state: position `(0,0)`, 8 AP, empty inventory. -/
def initialState : PlayerState := ⟨(0, 0), 8, []⟩

/-- Failure reasons, named as in the spec's error taxonomy; each
corresponds to one early-return message in the source. -/
inductive Err
  | insufficientAP
  | invalidDestination
  | invalidLocation
  | nothingToGather
deriving DecidableEq, Repr

/-- Read an inventory key, `0` when absent (`inventory[resource] || 0`). -/
def invGet : List (String × Int) → String → Int
  | [], _ => 0
  | (k', v) :: rest, k => if k' = k then v else invGet rest k

/-- Write an inventory key, appending it when absent (JavaScript object
assignment keeps insertion order). -/
def invSet : List (String × Int) → String → Int → List (String × Int)
  | [], k, v => [(k, v)]
  | (k', v') :: rest, k, v =>
      if k' = k then (k, v) :: rest else (k', v') :: invSet rest k v

/-- The `forEach` over `Object.entries(resources)` in `gather`: add each
yield entry into the inventory in order. -/
def gatherAdd (inv : List (String × Int)) (resources : List (String × Int)) :
    List (String × Int) :=
  resources.foldl (fun acc p => invSet acc p.1 (invGet acc p.1 + p.2)) inv

/-- `move(direction)`: AP check, then destination check, then mutate.
Returns the failure reason (if any) paired with the resulting state; on
every early return the state is the input state, since the source returns
before calling any setter. -/
def move (d : Dir) (s : PlayerState) : Option Err × PlayerState :=
  if s.ap < 1 then (some .insufficientAP, s)
  else
    let dir := DIRECTIONS d
    let newPos : Coord := (s.pos.1 + dir.1, s.pos.2 + dir.2)
    match tileAt newPos with
    | some _ => (none, { s with pos := newPos, ap := s.ap - 1 })
    | none => (some .invalidDestination, s)

/-- `gather()`.  The source reads `TILE_DATA[key].type` without checking
that the tile exists; the `none` result models the TypeError that a
missing tile would raise there.  Otherwise: home check, empty-yield
check, then add the yield table to the inventory and pay 2 AP. -/
def gather (s : PlayerState) : Option (Option Err × PlayerState) :=
  if s.ap < 2 then some (some .insufficientAP, s)
  else
    match tileAt s.pos with
    | none => none
    | some tile =>
        if tile.type = "home" then some (some .invalidLocation, s)
        else if tile.resources.length = 0 then some (some .nothingToGather, s)
        else some (none,
          { s with inventory := gatherAdd s.inventory tile.resources,
                   ap := s.ap - 2 })

/-- `alchemy()` (the spec's `homeAction`): AP check, at-home check
(`playerPos.q !== 0 || playerPos.r !== 0`), then pay 2 AP. -/
def alchemy (s : PlayerState) : Option Err × PlayerState :=
  if s.ap < 2 then (some .insufficientAP, s)
  else if s.pos.1 ≠ 0 ∨ s.pos.2 ≠ 0 then (some .invalidLocation, s)
  else (none, { s with ap := s.ap - 2 })

/-- `restoreAP()`: unconditionally set AP to 8. -/
def restoreAP (s : PlayerState) : Option Err × PlayerState :=
  (none, { s with ap := 8 })

/-- One user action, as issued by the UI layer. -/
inductive Action
  | move (d : Dir)
  | gather
  | alchemy
  | restoreAP

/-- Run one action.  `none` means the engine crashed (only `gather` can,
on a missing tile); otherwise the failure reason and resulting state. -/
def step : Action → PlayerState → Option (Option Err × PlayerState)
  | .move d, s => some (move d s)
  | .gather, s => gather s
  | .alchemy, s => some (alchemy s)
  | .restoreAP, s => some (restoreAP s)

/-- States reachable from the initial state by any sequence of actions
that do not crash (errors leave the state in place and the session
continues). -/
inductive Reachable : PlayerState → Prop
  | init : Reachable initialState
  | step {s : PlayerState} {a : Action} {r : Option Err} {s' : PlayerState} :
      Reachable s → step a s = some (r, s') → Reachable s'

/-- Hex distance from the origin in axial coordinates (used only to state
the ring structure of the authored map). -/
def hexDist (c : Coord) : Nat :=
  (c.1.natAbs + c.2.natAbs + (c.1 + c.2).natAbs) / 2

/-- Total amount of resource `k` in a yield table (specification-side
summary of what one successful `gather` adds for key `k`). -/
def tileYield : List (String × Int) → String → Int
  | [], _ => 0
  | (r, a) :: rest, k => (if r = k then a else 0) + tileYield rest k

/-! ### Inventory lemmas -/

theorem invGet_invSet (inv : List (String × Int)) (k : String) (v : Int)
    (k' : String) :
    invGet (invSet inv k v) k' = if k = k' then v else invGet inv k' := by
  induction inv with
  | nil => simp [invSet, invGet]
  | cons p rest ih =>
      obtain ⟨k₀, v₀⟩ := p
      by_cases h : k₀ = k
      · subst h
        simp only [invSet, if_pos rfl, invGet]
        split_ifs <;> simp_all [invGet]
      · simp only [invSet, if_neg h, invGet, ih]
        split_ifs <;> simp_all

theorem gatherAdd_invGet (res : List (String × Int))
    (inv : List (String × Int)) (k : String) :
    invGet (gatherAdd inv res) k = invGet inv k + tileYield res k := by
  induction res generalizing inv with
  | nil => simp [gatherAdd, tileYield]
  | cons p rest ih =>
      obtain ⟨r, a⟩ := p
      show invGet (gatherAdd (invSet inv r (invGet inv r + a)) rest) k = _
      rw [ih, invGet_invSet]
      simp only [tileYield]
      split_ifs with h
      · subst h; omega
      · omega

theorem tileYield_nonneg (res : List (String × Int))
    (h : ∀ p ∈ res, 0 ≤ p.2) (k : String) : 0 ≤ tileYield res k := by
  induction res with
  | nil => simp [tileYield]
  | cons p rest ih =>
      obtain ⟨r, a⟩ := p
      have ha : (0 : Int) ≤ a := h (r, a) (by simp)
      have hrest : 0 ≤ tileYield rest k := by
        refine ih (fun q hq => h q ?_)
        exact List.mem_cons_of_mem _ hq
      simp only [tileYield]
      split_ifs <;> omega

/-! ### Map lemmas -/

theorem tileAt_mem {c : Coord} {t : Tile} (h : tileAt c = some t) :
    (c, t) ∈ TILE_DATA := by
  unfold tileAt at h
  cases hf : TILE_DATA.find? (fun e => decide (e.1 = c)) with
  | none => rw [hf] at h; simp at h
  | some e =>
      rw [hf] at h
      simp only [Option.map_some'] at h
      have hm := List.mem_of_find?_eq_some hf
      have hp := List.find?_some hf
      have hc : e.1 = c := of_decide_eq_true hp
      have : (c, t) = e := by
        obtain ⟨e1, e2⟩ := e
        simp_all
      rw [this]
      exact hm

theorem tiles_yields_nonneg :
    ∀ e ∈ TILE_DATA, ∀ p ∈ e.2.resources, 0 ≤ p.2 := by decide

theorem tiles_home_iff :
    ∀ e ∈ TILE_DATA, e.2.type = "home" ↔ e.1 = (0, 0) := by decide

/-! ### Transition lemmas -/

theorem move_eq (d : Dir) (s : PlayerState) :
    move d s =
      if s.ap < 1 then (some .insufficientAP, s)
      else
        match tileAt (s.pos.1 + (DIRECTIONS d).1, s.pos.2 + (DIRECTIONS d).2)
          with
        | some _ => (none,
            { s with pos := (s.pos.1 + (DIRECTIONS d).1,
                             s.pos.2 + (DIRECTIONS d).2),
                     ap := s.ap - 1 })
        | none => (some .invalidDestination, s) := rfl

theorem gather_success_elim {s s' : PlayerState}
    (h : gather s = some (none, s')) :
    ∃ t, tileAt s.pos = some t ∧ 2 ≤ s.ap ∧ t.type ≠ "home" ∧
      t.resources ≠ [] ∧
      s' = ⟨s.pos, s.ap - 2, gatherAdd s.inventory t.resources⟩ := by
  unfold gather at h
  split at h
  · simp at h
  · cases htile : tileAt s.pos with
    | none => rw [htile] at h; simp at h
    | some t =>
        rw [htile] at h
        dsimp only at h
        refine ⟨t, rfl, by omega, ?_⟩
        split at h
        · simp at h
        · split at h
          · simp at h
          · simp only [Option.some_inj, Prod.mk.injEq] at h
            refine ⟨by assumption, ?_, h.2.symm⟩
            intro hres
            simp [hres] at *

theorem gather_fail_state {s : PlayerState} {e : Err} {s' : PlayerState}
    (h : gather s = some (some e, s')) : s' = s := by
  unfold gather at h
  split at h
  · simp_all
  · cases htile : tileAt s.pos with
    | none => rw [htile] at h; simp at h
    | some t =>
        rw [htile] at h
        dsimp only at h
        split at h
        · simp_all
        · split at h
          · simp_all
          · simp at h

theorem move_fail_state {d : Dir} {s : PlayerState} {e : Err}
    {s' : PlayerState} (h : move d s = (some e, s')) : s' = s := by
  rw [move_eq] at h
  split at h
  · simp_all
  · split at h
    · simp at h
    · simp_all

theorem move_success_elim {d : Dir} {s s' : PlayerState}
    (h : move d s = (none, s')) :
    1 ≤ s.ap ∧
    (tileAt (s.pos.1 + (DIRECTIONS d).1, s.pos.2 + (DIRECTIONS d).2)).isSome ∧
    s' = ⟨(s.pos.1 + (DIRECTIONS d).1, s.pos.2 + (DIRECTIONS d).2),
          s.ap - 1, s.inventory⟩ := by
  rw [move_eq] at h
  split at h
  · simp at h
  · rename_i hap
    refine ⟨by omega, ?_⟩
    split at h
    · rename_i t heq
      simp only [Prod.mk.injEq] at h
      exact ⟨by simp [heq], h.2.symm⟩
    · simp at h

theorem alchemy_fail_state {s : PlayerState} {e : Err} {s' : PlayerState}
    (h : alchemy s = (some e, s')) : s' = s := by
  unfold alchemy at h
  split at h
  · simp_all
  · split at h
    · simp_all
    · simp at h

theorem alchemy_success_elim {s s' : PlayerState}
    (h : alchemy s = (none, s')) :
    2 ≤ s.ap ∧ s.pos = (0, 0) ∧ s' = ⟨s.pos, s.ap - 2, s.inventory⟩ := by
  unfold alchemy at h
  split at h
  · simp at h
  · split at h
    · simp at h
    · rename_i hap hpos
      push_neg at hpos
      have hpos' : s.pos = (0, 0) := by
        have hp : s.pos = (s.pos.1, s.pos.2) := rfl
        rw [hp, hpos.1, hpos.2]
      simp only [Prod.mk.injEq] at h
      exact ⟨by omega, hpos', h.2.symm⟩

theorem restoreAP_elim {s s' : PlayerState} {r : Option Err}
    (h : restoreAP s = (r, s')) :
    r = none ∧ s' = ⟨s.pos, 8, s.inventory⟩ := by
  unfold restoreAP at h
  simp only [Prod.mk.injEq] at h
  exact ⟨h.1.symm, h.2.symm⟩

/-! ### State invariants -/

theorem step_pos_tile {s : PlayerState} {a : Action} {r : Option Err}
    {s' : PlayerState} (hs : (tileAt s.pos).isSome)
    (h : step a s = some (r, s')) : (tileAt s'.pos).isSome := by
  cases a with
  | move d =>
      simp only [step, Option.some_inj] at h
      cases r with
      | none =>
          obtain ⟨_, ht, hs'⟩ := move_success_elim h
          subst hs'
          exact ht
      | some e => rw [move_fail_state h]; exact hs
  | gather =>
      simp only [step] at h
      cases r with
      | none =>
          obtain ⟨t, _, _, _, _, hs'⟩ := gather_success_elim h
          subst hs'
          exact hs
      | some e => rw [gather_fail_state h]; exact hs
  | alchemy =>
      simp only [step, Option.some_inj] at h
      cases r with
      | none =>
          obtain ⟨_, _, hs'⟩ := alchemy_success_elim h
          subst hs'
          exact hs
      | some e => rw [alchemy_fail_state h]; exact hs
  | restoreAP =>
      simp only [step, Option.some_inj] at h
      obtain ⟨_, hs'⟩ := restoreAP_elim h
      subst hs'
      exact hs

theorem reachable_tile_isSome {s : PlayerState} (h : Reachable s) :
    (tileAt s.pos).isSome := by
  induction h with
  | init => decide
  | step _ hstep ih => exact step_pos_tile ih hstep

theorem step_ap_bound {s : PlayerState} {a : Action} {r : Option Err}
    {s' : PlayerState} (h0 : 0 ≤ s.ap) (h8 : s.ap ≤ 8)
    (h : step a s = some (r, s')) : 0 ≤ s'.ap ∧ s'.ap ≤ 8 := by
  cases a with
  | move d =>
      simp only [step, Option.some_inj] at h
      cases r with
      | none =>
          obtain ⟨hap, _, hs'⟩ := move_success_elim h
          subst hs'
          constructor <;> simp <;> omega
      | some e => rw [move_fail_state h]; omega
  | gather =>
      simp only [step] at h
      cases r with
      | none =>
          obtain ⟨t, _, hap, _, _, hs'⟩ := gather_success_elim h
          subst hs'
          constructor <;> simp <;> omega
      | some e => rw [gather_fail_state h]; omega
  | alchemy =>
      simp only [step, Option.some_inj] at h
      cases r with
      | none =>
          obtain ⟨hap, _, hs'⟩ := alchemy_success_elim h
          subst hs'
          constructor <;> simp <;> omega
      | some e => rw [alchemy_fail_state h]; omega
  | restoreAP =>
      simp only [step, Option.some_inj] at h
      obtain ⟨_, hs'⟩ := restoreAP_elim h
      subst hs'
      constructor <;> simp

theorem step_inv_mono {s : PlayerState} {a : Action} {r : Option Err}
    {s' : PlayerState} (h : step a s = some (r, s')) (k : String) :
    invGet s.inventory k ≤ invGet s'.inventory k := by
  cases a with
  | move d =>
      simp only [step, Option.some_inj] at h
      cases r with
      | none =>
          obtain ⟨_, _, hs'⟩ := move_success_elim h
          subst hs'
          simp
      | some e => rw [move_fail_state h]
  | gather =>
      simp only [step] at h
      cases r with
      | none =>
          obtain ⟨t, htile, _, _, _, hs'⟩ := gather_success_elim h
          subst hs'
          simp only
          rw [gatherAdd_invGet]
          have hmem := tileAt_mem htile
          have hnn : 0 ≤ tileYield t.resources k :=
            tileYield_nonneg _ (tiles_yields_nonneg _ hmem) k
          omega
      | some e => rw [gather_fail_state h]
  | alchemy =>
      simp only [step, Option.some_inj] at h
      cases r with
      | none =>
          obtain ⟨_, _, hs'⟩ := alchemy_success_elim h
          subst hs'
          simp
      | some e => rw [alchemy_fail_state h]
  | restoreAP =>
      simp only [step, Option.some_inj] at h
      obtain ⟨_, hs'⟩ := restoreAP_elim h
      subst hs'
      simp

theorem reachable_ap_bound {s : PlayerState} (h : Reachable s) :
    0 ≤ s.ap ∧ s.ap ≤ 8 := by
  induction h with
  | init => decide
  | step _ hstep ih => exact step_ap_bound ih.1 ih.2 hstep

theorem reachable_inv_nonneg {s : PlayerState} (h : Reachable s)
    (k : String) : 0 ≤ invGet s.inventory k := by
  induction h with
  | init => simp [initialState, invGet]
  | step _ hstep ih => exact le_trans ih (step_inv_mono hstep k)

/-! ### Claims -/

/-- Claim C1, counterexample: with the player at `(0,-4)` (a map tile whose
north neighbor `(0,-5)` is absent) and 0 AP, `move N` fails with
`InsufficientAP`, not `InvalidDestination` — the AP check runs first, so
the claim's "for every starting AP value" is false. -/
theorem move_boundary_zero_ap_cex :
    (tileAt ((0 : Int), (-4 : Int))).isSome = true ∧
    tileAt ((0 : Int), (-5 : Int)) = none ∧
    move .N ⟨(0, -4), 0, []⟩ = (some .insufficientAP, ⟨(0, -4), 0, []⟩) ∧
    Err.insufficientAP ≠ Err.invalidDestination := by decide

/-- Claim C1 (amended): if the player stands on a map tile whose
`d`-neighbor is absent from the map, then `move d` with at least 1 AP
fails with `InvalidDestination`, and with less than 1 AP it fails with
`InsufficientAP`; in both cases the whole state (position, AP, inventory)
is returned unchanged. -/
theorem move_to_missing_tile_fails (s : PlayerState) (d : Dir)
    (_hc : (tileAt s.pos).isSome)
    (ht : tileAt (s.pos.1 + (DIRECTIONS d).1,
                  s.pos.2 + (DIRECTIONS d).2) = none) :
    (1 ≤ s.ap → move d s = (some .invalidDestination, s)) ∧
    (s.ap < 1 → move d s = (some .insufficientAP, s)) := by
  constructor
  · intro hap
    rw [move_eq, if_neg (by omega), ht]
  · intro hap
    rw [move_eq, if_pos hap]

/-- Claim C1 witness: instantiated at `(0,-4)` with 3 AP and direction
`N`. -/
theorem move_to_missing_tile_fails_witness :
    move .N ⟨(0, -4), 3, []⟩ =
      (some .invalidDestination, (⟨(0, -4), 3, []⟩ : PlayerState)) :=
  (move_to_missing_tile_fails ⟨(0, -4), 3, []⟩ .N (by decide)
    (by decide)).1 (by decide)

/-- Claim C2, counterexample: at the Home tile with 1 AP, `gather` fails
with `InsufficientAP`, not `InvalidLocation` — the AP check runs first, so
the claim's "for every action-point value (including AP < 2)" is false. -/
theorem gather_home_low_ap_cex :
    tileAt ((0 : Int), (0 : Int)) =
      some ⟨"home", "#8B4513", "home", []⟩ ∧
    gather ⟨(0, 0), 1, []⟩ =
      some (some .insufficientAP, ⟨(0, 0), 1, []⟩) ∧
    Err.insufficientAP ≠ Err.invalidLocation := by decide

/-- Claim C2 (amended): with at least 2 AP, `gather` on the Home tile
fails with `InvalidLocation`, and on a non-Home map tile with empty yield
table it fails with `NothingToGather`; with less than 2 AP it fails with
`InsufficientAP` instead.  In every failure case the state is returned
unchanged. -/
theorem gather_home_or_empty_fails (s : PlayerState) (t : Tile)
    (hc : tileAt s.pos = some t) :
    (t.type = "home" →
      (2 ≤ s.ap → gather s = some (some .invalidLocation, s)) ∧
      (s.ap < 2 → gather s = some (some .insufficientAP, s))) ∧
    (t.type ≠ "home" → t.resources = [] → 2 ≤ s.ap →
      gather s = some (some .nothingToGather, s)) := by
  constructor
  · intro hhome
    constructor
    · intro hap
      unfold gather
      rw [if_neg (by omega), hc]
      dsimp only
      rw [if_pos hhome]
    · intro hap
      unfold gather
      rw [if_pos (by omega)]
  · intro hnot hres hap
    unfold gather
    rw [if_neg (by omega), hc]
    dsimp only
    rw [if_neg hnot, hres]
    simp

/-- Claim C2 witness: instantiated at the Home tile with 5 AP. -/
theorem gather_home_or_empty_fails_witness :
    gather ⟨(0, 0), 5, []⟩ =
      some (some .invalidLocation, (⟨(0, 0), 5, []⟩ : PlayerState)) :=
  ((gather_home_or_empty_fails ⟨(0, 0), 5, []⟩
    ⟨"home", "#8B4513", "home", []⟩ (by decide)).1 (by decide)).1 (by decide)

/-- Claim C3, counterexample: the authored map has 61 tiles, not 52. -/
theorem map_tile_count_cex :
    TILE_DATA.length = 61 ∧ TILE_DATA.length ≠ 52 := by decide

/-- Claim C3 (amended): the authored map is a fixed finite set of exactly
61 tiles with pairwise distinct coordinates, organized in four full
concentric rings (6, 12, 18 and 24 tiles at hex distances 1–4) around
exactly one Home tile located at `(0,0)`, and the Home tile's resource
yield table is empty. -/
theorem map_structure :
    TILE_DATA.length = 61 ∧
    (TILE_DATA.map (fun e => e.1)).Nodup ∧
    TILE_DATA.countP (fun e => decide (e.2.type = "home")) = 1 ∧
    tileAt (0, 0) = some ⟨"home", "#8B4513", "home", []⟩ ∧
    (∀ e ∈ TILE_DATA, e.2.type = "home" →
      e.1 = (0, 0) ∧ e.2.resources = []) ∧
    TILE_DATA.countP (fun e => decide (hexDist e.1 = 0)) = 1 ∧
    TILE_DATA.countP (fun e => decide (hexDist e.1 = 1)) = 6 ∧
    TILE_DATA.countP (fun e => decide (hexDist e.1 = 2)) = 12 ∧
    TILE_DATA.countP (fun e => decide (hexDist e.1 = 3)) = 18 ∧
    TILE_DATA.countP (fun e => decide (hexDist e.1 = 4)) = 24 ∧
    (∀ e ∈ TILE_DATA, hexDist e.1 ≤ 4) := by decide

/-- Claim C3 witness: the Home-tile clause instantiated at the `(0,0)`
entry of the map. -/
theorem map_structure_witness :
    (((0, 0), (⟨"home", "#8B4513", "home", []⟩ : Tile)) :
      Coord × Tile).1 = ((0, 0) : Coord) ∧
    (((0, 0), (⟨"home", "#8B4513", "home", []⟩ : Tile)) :
      Coord × Tile).2.resources = [] :=
  map_structure.2.2.2.2.1 ((0, 0), ⟨"home", "#8B4513", "home", []⟩)
    (by decide) (by decide)

/-- Claim C4: every operation, successful or failed, keeps
`0 ≤ actionPoints ≤ 8` when it held before, and every state reachable
from the initial state (AP = 8) satisfies the bound. -/
theorem ap_bounds_preserved :
    (∀ (s : PlayerState) (a : Action) (r : Option Err) (s' : PlayerState),
        0 ≤ s.ap → s.ap ≤ 8 → step a s = some (r, s') →
        0 ≤ s'.ap ∧ s'.ap ≤ 8) ∧
    (∀ s : PlayerState, Reachable s → 0 ≤ s.ap ∧ s.ap ≤ 8) :=
  ⟨fun _ _ _ _ h0 h8 h => step_ap_bound h0 h8 h,
   fun _ h => reachable_ap_bound h⟩

/-- Claim C4 witness: the bound at the initial state. -/
theorem ap_bounds_preserved_witness :
    0 ≤ initialState.ap ∧ initialState.ap ≤ 8 :=
  ap_bounds_preserved.2 initialState Reachable.init

/-- Claim C5: whenever an operation fails (returns an error), the
resulting state equals the input state exactly — position, AP and
inventory are all untouched. -/
theorem failed_precondition_no_mutation (s : PlayerState) (a : Action)
    (e : Err) (s' : PlayerState) (h : step a s = some (some e, s')) :
    s' = s := by
  cases a with
  | move d =>
      simp only [step, Option.some_inj] at h
      exact move_fail_state h
  | gather =>
      simp only [step] at h
      exact gather_fail_state h
  | alchemy =>
      simp only [step, Option.some_inj] at h
      exact alchemy_fail_state h
  | restoreAP =>
      simp only [step, Option.some_inj] at h
      have := (restoreAP_elim h).1
      simp at this

/-- Claim C5 witness: `gather` failing at Home with 4 AP leaves the state
unchanged. -/
theorem failed_precondition_no_mutation_witness :
    (⟨(0, 0), 4, []⟩ : PlayerState) = ⟨(0, 0), 4, []⟩ :=
  failed_precondition_no_mutation ⟨(0, 0), 4, []⟩ .gather .invalidLocation
    ⟨(0, 0), 4, []⟩ (by decide)

/-- Claim C6: when `move d` succeeds (AP ≥ 1 and the target tile exists),
it reports no error, moves the position by exactly `offset(d)`, decreases
AP by exactly 1, and leaves the inventory unchanged. -/
theorem move_success_frame (s : PlayerState) (d : Dir) (hap : 1 ≤ s.ap)
    (ht : (tileAt (s.pos.1 + (DIRECTIONS d).1,
                   s.pos.2 + (DIRECTIONS d).2)).isSome) :
    (move d s).1 = none ∧
    (move d s).2.pos = (s.pos.1 + (DIRECTIONS d).1,
                        s.pos.2 + (DIRECTIONS d).2) ∧
    (move d s).2.ap = s.ap - 1 ∧
    (move d s).2.inventory = s.inventory := by
  have hmv : move d s = (none,
      ⟨(s.pos.1 + (DIRECTIONS d).1, s.pos.2 + (DIRECTIONS d).2),
       s.ap - 1, s.inventory⟩) := by
    rw [move_eq, if_neg (by omega)]
    cases hm : tileAt (s.pos.1 + (DIRECTIONS d).1,
        s.pos.2 + (DIRECTIONS d).2) with
    | none => rw [hm] at ht; simp at ht
    | some t => rfl
  rw [hmv]
  exact ⟨rfl, rfl, rfl, rfl⟩

/-- Claim C6 witness: instantiated at the initial state with direction
`N`. -/
theorem move_success_frame_witness :
    (move .N initialState).1 = none ∧
    (move .N initialState).2.pos =
      (initialState.pos.1 + (DIRECTIONS .N).1,
       initialState.pos.2 + (DIRECTIONS .N).2) ∧
    (move .N initialState).2.ap = initialState.ap - 1 ∧
    (move .N initialState).2.inventory = initialState.inventory :=
  move_success_frame initialState .N (by decide) (by decide)

/-- Claim C7: the amount a successful `gather` adds to each inventory key
depends only on the tile stood on (two successful gathers at the same
position add the same amounts, and two back-to-back gathers add exactly
twice the single-call amount), and the inventory is monotone: no step
ever decreases any count, and every reachable state has only non-negative
counts. -/
theorem gather_yield_deterministic_monotone :
    (∀ (u v u' v' : PlayerState), v.pos = u.pos → 2 ≤ u.ap → 2 ≤ v.ap →
        gather u = some (none, u') → gather v = some (none, v') →
        ∀ k, invGet u'.inventory k - invGet u.inventory k
           = invGet v'.inventory k - invGet v.inventory k) ∧
    (∀ (u u' u'' : PlayerState),
        gather u = some (none, u') → gather u' = some (none, u'') →
        ∀ k, invGet u''.inventory k - invGet u.inventory k
           = 2 * (invGet u'.inventory k - invGet u.inventory k)) ∧
    (∀ (s : PlayerState) (a : Action) (r : Option Err) (s' : PlayerState),
        step a s = some (r, s') →
        ∀ k, invGet s.inventory k ≤ invGet s'.inventory k) ∧
    (∀ s : PlayerState, Reachable s → ∀ k, 0 ≤ invGet s.inventory k) := by
  refine ⟨?_, ?_, fun _ _ _ _ h k => step_inv_mono h k,
          fun _ h k => reachable_inv_nonneg h k⟩
  · intro u v u' v' hpos _ _ hu hv k
    obtain ⟨t₁, htu, _, _, _, hu'⟩ := gather_success_elim hu
    obtain ⟨t₂, htv, _, _, _, hv'⟩ := gather_success_elim hv
    rw [hpos, htu, Option.some_inj] at htv
    subst htv
    subst hu'
    subst hv'
    simp only
    rw [gatherAdd_invGet, gatherAdd_invGet]
    omega
  · intro u u' u'' hu hu' k
    obtain ⟨t₁, htu, _, _, _, he⟩ := gather_success_elim hu
    obtain ⟨t₂, htu', _, _, _, he'⟩ := gather_success_elim hu'
    subst he
    simp only at htu'
    rw [htu, Option.some_inj] at htu'
    subst htu'
    subst he'
    simp only
    rw [gatherAdd_invGet, gatherAdd_invGet]
    omega

/-- Claim C7 witness: two gathers at `(0,-1)` both add 3 wood. -/
theorem gather_yield_deterministic_monotone_witness :
    invGet (⟨(0, -1), 2, [("wood", 3), ("herbs", 1)]⟩ :
      PlayerState).inventory "wood" -
      invGet (⟨(0, -1), 4, []⟩ : PlayerState).inventory "wood"
    = invGet (⟨(0, -1), 2, [("wood", 3), ("herbs", 1)]⟩ :
        PlayerState).inventory "wood" -
      invGet (⟨(0, -1), 4, []⟩ : PlayerState).inventory "wood" :=
  gather_yield_deterministic_monotone.1 ⟨(0, -1), 4, []⟩ ⟨(0, -1), 4, []⟩
    ⟨(0, -1), 2, [("wood", 3), ("herbs", 1)]⟩
    ⟨(0, -1), 2, [("wood", 3), ("herbs", 1)]⟩
    rfl (by decide) (by decide) (by decide) (by decide) "wood"

/-- Claim C8: the scenario from the spec, starting at the initial state:
`move N` reaches `(0,-1)` with 7 AP; `gather` succeeds leaving 5 AP and
inventory wood 3, herbs 1; `move S` returns to `(0,0)` with 4 AP;
`gather` at Home fails `InvalidLocation` leaving 4 AP; `restoreAP` sets
AP back to 8. -/
theorem scenario_move_gather_restore :
    move .N initialState = (none, ⟨(0, -1), 7, []⟩) ∧
    gather ⟨(0, -1), 7, []⟩ =
      some (none, ⟨(0, -1), 5, [("wood", 3), ("herbs", 1)]⟩) ∧
    move .S ⟨(0, -1), 5, [("wood", 3), ("herbs", 1)]⟩ =
      (none, ⟨(0, 0), 4, [("wood", 3), ("herbs", 1)]⟩) ∧
    gather ⟨(0, 0), 4, [("wood", 3), ("herbs", 1)]⟩ =
      some (some .invalidLocation,
        ⟨(0, 0), 4, [("wood", 3), ("herbs", 1)]⟩) ∧
    restoreAP ⟨(0, 0), 4, [("wood", 3), ("herbs", 1)]⟩ =
      (none, ⟨(0, 0), 8, [("wood", 3), ("herbs", 1)]⟩) := by decide

/-- Claim C9: in every reachable state the player's position is a key of
the tile table, so `gather`'s unchecked lookup of the current tile never
sees an absent tile and `gather` never crashes. -/
theorem reachable_gather_safe (s : PlayerState) (h : Reachable s) :
    (tileAt s.pos).isSome ∧ gather s ≠ none := by
  have ht := reachable_tile_isSome h
  refine ⟨ht, ?_⟩
  unfold gather
  split
  · simp
  · cases hm : tileAt s.pos with
    | none => rw [hm] at ht; simp at ht
    | some t =>
        dsimp only
        split
        · simp
        · split <;> simp

/-- Claim C9 witness: instantiated at the initial state. -/
theorem reachable_gather_safe_witness :
    (tileAt initialState.pos).isSome ∧ gather initialState ≠ none :=
  reachable_gather_safe initialState Reachable.init

/-- Claim C10: for every coordinate present in the map, the tile's
terrain type is `home` (the predicate `gather` rejects on) exactly when
the coordinate is `(0,0)` (the predicate `alchemy` gates on). -/
theorem home_tile_iff_origin (c : Coord) (t : Tile)
    (h : tileAt c = some t) : t.type = "home" ↔ c = (0, 0) :=
  tiles_home_iff (c, t) (tileAt_mem h)

/-- Claim C10 witness: instantiated at the Home tile. -/
theorem home_tile_iff_origin_witness :
    (⟨"home", "#8B4513", "home", []⟩ : Tile).type = "home" ↔
      ((0, 0) : Coord) = (0, 0) :=
  home_tile_iff_origin (0, 0) ⟨"home", "#8B4513", "home", []⟩ (by decide)

end HexGame
